import Mathlib

/-!
Shallow embedding of `django_vite/templatetags/django_vite.py`:
the configuration record, the manifest graph, the tag generators, and the
asset-resolution operations of `DjangoViteAssetLoader`.

Python dictionaries are modelled as insertion-ordered association lists,
Python exceptions as an explicit `PyErr` value in `Except`, and the
potentially non-terminating recursive CSS walk as a fuel-indexed function
returning `none` when the fuel is exhausted (so `none` for every fuel
models unbounded recursion).
-/

namespace DjangoVite

/-- Model of Python's substring test used as the worker of `strIn`:
walks the haystack and checks the needle at every position. -/
def strInAux (n : List Char) : List Char → Bool
  | [] => n.isEmpty
  | c :: rest => n.isPrefixOf (c :: rest) || strInAux n rest

/-- Model of the Python expression `needle in hay` on strings. -/
def strIn (needle hay : String) : Bool :=
  strInAux needle.toList hay.toList

/-- Model of Python's `str.endswith`. -/
def strEndsWith (s suf : String) : Bool :=
  suf.toList.isSuffixOf s.toList

/-- Model of Python's `str.startswith`. -/
def strStartsWith (s t : String) : Bool :=
  t.toList.isPrefixOf s.toList

/-- Model of Python's `sep.join(items)`: items interleaved with the
separator, empty string on the empty list. -/
def strJoin (sep : String) : List String → String
  | [] => ""
  | [x] => x
  | x :: y :: rest => x ++ sep ++ strJoin sep (y :: rest)

/-- Everything of a string up to and including its last slash
(empty when the string has no slash). -/
def baseDir (s : String) : String :=
  String.mk ((s.toList.reverse.dropWhile (fun c => c ≠ '/')).reverse)

/-- Simplified model of `urllib.parse.urljoin`, exact for the shapes this
code exercises in production URL generation (a relative base such as
`"static/"` joined with a relative file path); the scheme/netloc handling
of absolute bases is not modelled beyond passing absolute references
through. -/
def urljoin (base url : String) : String :=
  if url = "" then base
  else if strIn "://" url then url
  else if strStartsWith url "/" then url
  else baseDir base ++ url

/-- Simplified model of pathlib's `/` join on string components. -/
def pathJoin (a b : String) : String :=
  if b = "" then a
  else if a = "" then b
  else if strEndsWith a "/" then a ++ b
  else a ++ "/" ++ b

/-- One entry of the `manifest.json`; mirrors the `DjangoViteManifest`
NamedTuple (fields `file`, `src`, `isEntry`, `css`, `imports`). -/
structure DjangoViteManifest where
  file : String
  src : String
  isEntry : Bool
  css : List String := []
  imports : List String := []
  deriving DecidableEq

/-- The parsed manifest: a logical path keyed, insertion-ordered mapping
to entries (the Python `Dict[str, DjangoViteManifest]`). -/
abbrev Manifest := List (String × DjangoViteManifest)

/-- Dictionary lookup on the manifest (`manifest[path]` / `path in manifest`). -/
def manifestLookup (m : Manifest) (k : String) : Option DjangoViteManifest :=
  match m with
  | [] => none
  | (k2, e) :: rest => if k2 = k then some e else manifestLookup rest k

/-- The ambient Django settings the configuration derives URLs from. -/
structure DjangoSettings where
  STATIC_URL : String := "/static/"
  STATIC_ROOT : String := "staticroot"

/-- Mirrors the `DjangoViteConfig` NamedTuple; `static_url_pfx` models the
source field `static_url_prefix`. -/
structure DjangoViteConfig where
  assets_path : String
  dev_mode : Bool := false
  dev_server_protocol : String := "http"
  dev_server_host : String := "localhost"
  dev_server_port : Nat := 3000
  ws_client_url : String := "@vite/client"
  static_url_pfx : String := ""
  legacy_polyfills_motif : String := "legacy-polyfills"
  manifest_path : String := ""
  react_refresh_url : String := "@react-refresh"

/-- The `static_url` property: `urljoin(settings.STATIC_URL, prefix)`
normalised to a trailing slash. -/
def DjangoViteConfig.static_url (c : DjangoViteConfig) (st : DjangoSettings) : String :=
  let url := urljoin st.STATIC_URL c.static_url_pfx
  if strEndsWith url "/" then url else url ++ "/"

/-- The `static_root` property. -/
def DjangoViteConfig.static_root (c : DjangoViteConfig) (st : DjangoSettings) : String :=
  if c.dev_mode then c.assets_path else pathJoin st.STATIC_ROOT c.static_url_pfx

/-- The `get_computed_manifest_path` method: the explicit `manifest_path`
when set (non-empty string is truthy), else `static_root / "manifest.json"`. -/
def DjangoViteConfig.get_computed_manifest_path
    (c : DjangoViteConfig) (st : DjangoSettings) : String :=
  if c.manifest_path ≠ "" then c.manifest_path
  else pathJoin (c.static_root st) "manifest.json"

/-- Python exceptions raised by the loader code. -/
inductive PyErr where
  | keyError : String → PyErr
  | attributeError : String → PyErr
  | typeError : String → PyErr
  | runtimeError : String → PyErr
  deriving DecidableEq

/-- Ordered-dictionary lookup for HTML attribute mappings. -/
def dictGet (d : List (String × String)) (k : String) : Option String :=
  match d with
  | [] => none
  | (k2, v) :: rest => if k2 = k then some v else dictGet rest k

/-- Keys of an attribute mapping, in insertion order. -/
def dictKeys (d : List (String × String)) : List String :=
  d.map Prod.fst

/-- Python dict insertion: an existing key keeps its position and gets the
new value, a fresh key is appended at the end. -/
def pyDictInsert (d : List (String × String)) (k v : String) : List (String × String) :=
  if d.any (fun p => p.1 == k) then d.map (fun p => if p.1 = k then (k, v) else p)
  else d ++ [(k, v)]

/-- Model of the dict-literal merge `{**d, **kw}`. -/
def pyDictMerge (d kw : List (String × String)) : List (String × String) :=
  kw.foldl (fun acc p => pyDictInsert acc p.1 p.2) d

/-- The attribute rendering shared by `_generate_script_tag` and
`_generate_preload_tag`: `" ".join(f_many(key="value"))` in supplied order. -/
def attrsString (attrs : List (String × String)) : String :=
  strJoin " " (attrs.map (fun p => p.1 ++ "=\"" ++ p.2 ++ "\""))

/-- `_generate_script_tag`. -/
def generate_script_tag (src : String) (attrs : List (String × String)) : String :=
  "<script " ++ attrsString attrs ++ " src=\"" ++ src ++ "\"></script>"

/-- `_generate_stylesheet_tag`. -/
def generate_stylesheet_tag (href : String) : String :=
  "<link rel=\"stylesheet\" href=\"" ++ href ++ "\" />"

/-- `_generate_stylesheet_preload_tag`. -/
def generate_stylesheet_preload_tag (href : String) : String :=
  "<link rel=\"preload\" href=\"" ++ href ++ "\" as=\"style\" />"

/-- `_generate_preload_tag`. -/
def generate_preload_tag (href : String) (attrs : List (String × String)) : String :=
  "<link href=\"" ++ href ++ "\" " ++ attrsString attrs ++ " />"

/-- `_generate_production_server_url`, modelled without the optional
`django.contrib.staticfiles` storage collaborator (spec section 6: when the
collaborator is absent, the URL is the file path joined with the prefix). -/
def generate_production_server_url (path : String) (static_url_pfx : String) : String :=
  if static_url_pfx ≠ "" then
    let pfx := if strEndsWith static_url_pfx "/" then static_url_pfx
               else static_url_pfx ++ "/"
    urljoin pfx path
  else path

/-- `_generate_vite_server_url`. -/
def generate_vite_server_url (st : DjangoSettings) (path : String)
    (c : DjangoViteConfig) : String :=
  urljoin
    (c.dev_server_protocol ++ "://" ++ c.dev_server_host ++ ":"
      ++ toString c.dev_server_port)
    (urljoin (c.static_url st) path)

/-- The second loop body of `_generate_css_files_of_asset`: walks the
current entry's own `css` list, appending a tag for every path not yet in
`already_processed` and appending every path (emitted or not) to
`already_processed`. -/
def generate_css_own (tg : String → String) (pre : String) :
    List String → List String → List String → List String × List String
  | [], tags, already => (tags, already)
  | c :: rest, tags, already =>
    let tags2 := if c ∉ already
      then tags ++ [tg (generate_production_server_url c pre)]
      else tags
    generate_css_own tg pre rest tags2 (already ++ [c])

/-- The first loop of `_generate_css_files_of_asset`: recurses into each
direct import in order, threading the shared `already_processed` list; the
recursive call is abstracted as `step`. -/
def generate_css_imports
    (step : String → List String → Option (Except PyErr (List String × List String))) :
    List String → List String → Option (Except PyErr (List String × List String))
  | [], already => some (.ok ([], already))
  | p :: rest, already =>
    match step p already with
    | none => none
    | some (.error e) => some (.error e)
    | some (.ok (tags1, a1)) =>
      match generate_css_imports step rest a1 with
      | none => none
      | some (.error e) => some (.error e)
      | some (.ok (tags2, a2)) => some (.ok (tags1 ++ tags2, a2))

/-- `_generate_css_files_of_asset`, fuel-indexed: `manifest[path]` lookup
(raising `KeyError` when absent), then the imports recursion, then the
entry's own css loop. `none` means the fuel bound on the recursion depth
was exceeded; the Python original has no such bound and simply recurses. -/
def generate_css_files_of_asset (m : Manifest) (tg : String → String) (pre : String) :
    Nat → String → List String → Option (Except PyErr (List String × List String))
  | 0, _, _ => none
  | fuel + 1, path, already =>
    match manifestLookup m path with
    | none => some (.error (.keyError path))
    | some entry =>
      match generate_css_imports (generate_css_files_of_asset m tg pre fuel)
          entry.imports already with
      | none => none
      | some (.error e) => some (.error e)
      | some (.ok (tags, a1)) =>
        some (.ok (generate_css_own tg pre entry.css tags a1))

/-- `generate_vite_asset`. In production it guards the manifest lookup,
collects the CSS tags and the script tag, and then executes
`for dep in manifest.imports`; `manifest` is the whole dict of entries and a
Python dict has no attribute `imports`, so that line raises
`AttributeError` (the loop body would additionally index the nonexistent
instance attribute `self._manifest`). -/
def generate_vite_asset (st : DjangoSettings) (cfg : DjangoViteConfig) (m : Manifest)
    (fuel : Nat) (path : String) (kwargs : List (String × String)) :
    Option (Except PyErr String) :=
  let static_url := cfg.static_url st
  if cfg.dev_mode then
    some (.ok (generate_script_tag (generate_vite_server_url st path cfg)
      (pyDictMerge [("type", "module")] kwargs)))
  else
    match manifestLookup m path with
    | none =>
      some (.error (.runtimeError
        ("Cannot find " ++ path ++ " in Vite manifest at "
          ++ cfg.get_computed_manifest_path st)))
    | some entry =>
      let scripts_attrs := pyDictMerge [("type", "module"), ("crossorigin", "")] kwargs
      match generate_css_files_of_asset m generate_stylesheet_tag
          cfg.static_url_pfx fuel path [] with
      | none => none
      | some (.error e) => some (.error e)
      | some (.ok (cssTags, _)) =>
        let _tags := cssTags
          ++ [generate_script_tag (urljoin static_url entry.file) scripts_attrs]
        some (.error (.attributeError
          "dict object has no attribute imports"))

/-- The `for dependency_path in manifest_entry.imports` loop of
`preload_vite_asset`: one modulepreload link per direct import, via
`manifest[dependency_path].file` (raising `KeyError` on a missing import). -/
def preloadImports (m : Manifest) (pfx : String) (attrs : List (String × String)) :
    List String → Except PyErr (List String)
  | [] => .ok []
  | dep :: rest =>
    match manifestLookup m dep with
    | none => .error (.keyError dep)
    | some de =>
      match preloadImports m pfx attrs rest with
      | .error e => .error e
      | .ok ts =>
        .ok (generate_preload_tag (generate_production_server_url de.file pfx) attrs :: ts)

/-- `preload_vite_asset`, statement for statement: `manifest[path]` is
indexed before any guard (raising `KeyError` when absent), then
`if not config.dev_mode: return ""`, then the (now unreachable)
`path not in manifest` guard, then the preload tag, the CSS preload chain
and the import preloads joined with a newline. -/
def preload_vite_asset (st : DjangoSettings) (cfg : DjangoViteConfig) (m : Manifest)
    (fuel : Nat) (path : String) : Option (Except PyErr String) :=
  match manifestLookup m path with
  | none => some (.error (.keyError path))
  | some entry =>
    if cfg.dev_mode = false then some (.ok "")
    else if (manifestLookup m path).isNone then
      some (.error (.runtimeError
        ("Cannot find " ++ path ++ " in Vite manifest at "
          ++ cfg.get_computed_manifest_path st)))
    else
      let script_attrs := [("type", "text/javascript"), ("crossorigin", "anonymous"),
        ("rel", "modulepreload"), ("as", "script")]
      let tag1 := generate_preload_tag
        (generate_production_server_url entry.file cfg.static_url_pfx) script_attrs
      match generate_css_files_of_asset m generate_stylesheet_preload_tag
          cfg.static_url_pfx fuel path [] with
      | none => none
      | some (.error e) => some (.error e)
      | some (.ok (cssTags, _)) =>
        match preloadImports m cfg.static_url_pfx script_attrs entry.imports with
        | .error e => some (.error e)
        | .ok impTags => some (.ok (strJoin "\n" (tag1 :: (cssTags ++ impTags))))

/-- `generate_vite_asset_url`. In production, after the membership guard,
the return expression indexes `self._manifest[path]` — the loader instance
only has a `_manifests` attribute, so the line raises `AttributeError`
before any URL is produced. -/
def generate_vite_asset_url (st : DjangoSettings) (cfg : DjangoViteConfig)
    (m : Manifest) (path : String) : Except PyErr String :=
  if cfg.dev_mode then .ok (generate_vite_server_url st path cfg)
  else
    match manifestLookup m path with
    | none =>
      .error (.runtimeError
        ("Cannot find " ++ path ++ " in Vite manifest at "
          ++ cfg.get_computed_manifest_path st))
    | some _ =>
      .error (.attributeError
        "DjangoViteAssetLoader object has no attribute _manifest")

/-- The `for path, content in manifest.items()` scan of
`generate_vite_legacy_polyfills`: first entry, in document order, whose key
contains the motif as a substring. -/
def findPolyfillsEntry (motif : String) : Manifest → Option (String × DjangoViteManifest)
  | [] => none
  | (k, e) :: rest =>
    if strIn motif k then some (k, e) else findPolyfillsEntry motif rest

/-- `generate_vite_legacy_polyfills` (the manifest argument stands for the
already-loaded `_get_manifest` result, which the source obtains before the
dev-mode check). On the first motif match the source evaluates
`content["file"]`; `content` is a NamedTuple, and indexing a tuple with a
string raises `TypeError`, so no script tag is ever produced. -/
def generate_vite_legacy_polyfills (st : DjangoSettings) (cfg : DjangoViteConfig)
    (m : Manifest) (kwargs : List (String × String)) : Except PyErr String :=
  if cfg.dev_mode then .ok ""
  else
    let _scripts_attrs := pyDictMerge [("nomodule", ""), ("crossorigin", "")] kwargs
    match findPolyfillsEntry cfg.legacy_polyfills_motif m with
    | some _ => .error (.typeError "tuple indices must be integers or slices, not str")
    | none =>
      .error (.runtimeError
        ("Vite legacy polyfills not found in manifest at "
          ++ cfg.get_computed_manifest_path st))

/-- `generate_vite_legacy_asset`. -/
def generate_vite_legacy_asset (st : DjangoSettings) (cfg : DjangoViteConfig)
    (m : Manifest) (path : String) (kwargs : List (String × String)) :
    Except PyErr String :=
  if cfg.dev_mode then .ok ""
  else
    match manifestLookup m path with
    | none =>
      .error (.runtimeError
        ("Cannot find " ++ path ++ " in Vite manifest at "
          ++ cfg.get_computed_manifest_path st))
    | some entry =>
      let scripts_attrs := pyDictMerge [("nomodule", ""), ("crossorigin", "")] kwargs
      .ok (generate_script_tag
        (generate_production_server_url entry.file cfg.static_url_pfx) scripts_attrs)

/-- Spec-side definition (follows the wording of spec section 4.5a): the
raw pre-order CSS sequence of an entry — for each direct import, first
that import's whole sequence, then the entry's own direct `css` paths.
Fuel-indexed with the same depth bound as the walk it specifies. -/
def cssSpecSeq (m : Manifest) : Nat → String → List String
  | 0, _ => []
  | fuel + 1, path =>
    match manifestLookup m path with
    | none => []
    | some entry => (entry.imports.flatMap (cssSpecSeq m fuel)) ++ entry.css

/-- Spec-side definition: first-occurrence deduplication of a sequence
relative to an initial visited set (spec section 4.5a's `visitedCss`). -/
def dedupFrom (seen : List String) : List String → List String
  | [] => []
  | c :: rest =>
    if c ∈ seen then dedupFrom seen rest
    else c :: dedupFrom (c :: seen) rest

/-- Acyclicity of the `imports` relation of a manifest, witnessed by a
rank function that strictly decreases along every import edge. -/
abbrev RankedImports (m : Manifest) (r : String → Nat) : Prop :=
  ∀ p ∈ m, ∀ i ∈ p.2.imports, r i < r p.1

/-- Well-formedness of the manifest graph (spec section 3): every path in
an entry's `imports` is itself a key of the manifest. -/
abbrev ImportsClosed (m : Manifest) : Prop :=
  ∀ p ∈ m, ∀ i ∈ p.2.imports, (manifestLookup m i).isSome = true

/-- Ambient settings used by the concrete examples. -/
def stEx : DjangoSettings := {}

/-- Production configuration with an empty static URL prefix. -/
def prodCfg : DjangoViteConfig := { assets_path := "assets" }

/-- Production configuration with `static_url_prefix = "static/"`
(the configuration of the spec's worked example). -/
def prodCfgStatic : DjangoViteConfig :=
  { assets_path := "assets", static_url_pfx := "static/" }

/-- Development-mode configuration. -/
def devCfg : DjangoViteConfig := { assets_path := "assets", dev_mode := true }

/-- The `main.js` entry of the spec's worked example manifest. -/
def mainEntry : DjangoViteManifest :=
  { file := "main.abc123.js", src := "main.js", isEntry := true,
    css := ["main.css"], imports := ["shared.js"] }

/-- The `shared.js` entry of the spec's worked example manifest. -/
def sharedEntry : DjangoViteManifest :=
  { file := "shared.def456.js", src := "shared.js", isEntry := false,
    css := ["shared.css"], imports := [] }

/-- The spec's worked two-entry example manifest, in document order. -/
def exManifest : Manifest := [("main.js", mainEntry), ("shared.js", sharedEntry)]

/-- A rank function witnessing that `exManifest` is acyclic. -/
def exRank : String → Nat := fun s => if s = "shared.js" then 0 else 1

/-- A manifest whose `imports` relation has a self-loop reachable from its
only entry. -/
def cycManifest : Manifest :=
  [("app.js", { file := "app.123.js", src := "app.js", isEntry := true,
                css := [], imports := ["app.js"] })]

/-- A one-entry manifest with no dependencies. -/
def soloManifest : Manifest :=
  [("solo.js", { file := "solo.1234.js", src := "solo.js", isEntry := true,
                 css := [], imports := [] })]

/-- First polyfills entry used by `polyManifest`. -/
def polyEntryA : DjangoViteManifest :=
  { file := "polyfills.111.js", src := "vite/legacy-polyfills-aaa",
    isEntry := false, css := [], imports := [] }

/-- Second polyfills entry used by `polyManifest`. -/
def polyEntryB : DjangoViteManifest :=
  { file := "polyfills.222.js", src := "vite/legacy-polyfills-bbb",
    isEntry := false, css := [], imports := [] }

/-- A manifest with two keys containing the default legacy-polyfills motif,
in a known document order. -/
def polyManifest : Manifest :=
  [("vite/legacy-polyfills-aaa", polyEntryA),
   ("vite/legacy-polyfills-bbb", polyEntryB)]

/-- The default script attributes of `generate_vite_asset` in production
(the dict literal of the source before `**kwargs` is merged in). -/
def scriptDefaultAttrs : List (String × String) :=
  [("type", "module"), ("crossorigin", "")]

/-! Helper lemmas about the ordered-dictionary model. -/

theorem dictKeys_cons (p : String × String) (rest : List (String × String)) :
    dictKeys (p :: rest) = p.1 :: dictKeys rest := rfl

theorem dictGet_cons (p : String × String) (rest : List (String × String)) (k : String) :
    dictGet (p :: rest) k = if p.1 = k then some p.2 else dictGet rest k := rfl

theorem any_key_eq (d : List (String × String)) (k : String) :
    (d.any (fun p => p.1 == k)) = true ↔ k ∈ dictKeys d := by
  induction d with
  | nil => simp [dictKeys]
  | cons p rest ih =>
    rw [List.any_cons, dictKeys_cons]
    simp only [Bool.or_eq_true, beq_iff_eq, List.mem_cons]
    constructor
    · rintro (h | h)
      · exact Or.inl h.symm
      · exact Or.inr (ih.mp h)
    · rintro (h | h)
      · exact Or.inl h.symm
      · exact Or.inr (ih.mpr h)

theorem any_key_eq_false (d : List (String × String)) (k : String)
    (h : k ∉ dictKeys d) : (d.any (fun p => p.1 == k)) = false := by
  cases hb : (d.any (fun p => p.1 == k)) with
  | false => rfl
  | true => exact absurd ((any_key_eq d k).mp hb) h

theorem dictKeys_map_replace (k v : String) (d : List (String × String)) :
    dictKeys (d.map (fun p => if p.1 = k then (k, v) else p)) = dictKeys d := by
  simp only [dictKeys, List.map_map]
  apply List.map_congr_left
  intro p _
  by_cases hp : p.1 = k
  · simp [hp]
  · simp [hp]

theorem dictGet_map_replace_self (k v : String) :
    ∀ d : List (String × String), k ∈ dictKeys d →
      dictGet (d.map (fun p => if p.1 = k then (k, v) else p)) k = some v := by
  intro d
  induction d with
  | nil => intro h; simp [dictKeys] at h
  | cons p rest ih =>
    intro h
    rw [List.map_cons]
    by_cases hp : p.1 = k
    · rw [if_pos hp, dictGet_cons]
      simp
    · rw [if_neg hp, dictGet_cons, if_neg hp]
      apply ih
      rw [dictKeys_cons] at h
      rcases List.mem_cons.mp h with h1 | h1
      · exact absurd h1.symm hp
      · exact h1

theorem dictGet_map_replace_ne (k v k2 : String) (hne : k2 ≠ k) :
    ∀ d : List (String × String),
      dictGet (d.map (fun p => if p.1 = k then (k, v) else p)) k2 = dictGet d k2 := by
  intro d
  induction d with
  | nil => rfl
  | cons p rest ih =>
    rw [List.map_cons]
    by_cases hp : p.1 = k
    · rw [if_pos hp, dictGet_cons, dictGet_cons]
      have h1 : ¬ ((k, v).1 = k2) := fun he => hne he.symm
      have h2 : ¬ (p.1 = k2) := by rw [hp]; exact fun he => hne he.symm
      rw [if_neg h1, if_neg h2]
      exact ih
    · rw [if_neg hp, dictGet_cons, dictGet_cons]
      by_cases hp2 : p.1 = k2
      · rw [if_pos hp2, if_pos hp2]
      · rw [if_neg hp2, if_neg hp2]
        exact ih

theorem dictGet_append_of_none (d d2 : List (String × String)) (k : String)
    (h : dictGet d k = none) : dictGet (d ++ d2) k = dictGet d2 k := by
  induction d with
  | nil => rfl
  | cons p rest ih =>
    rw [dictGet_cons] at h
    by_cases hp : p.1 = k
    · rw [if_pos hp] at h
      exact absurd h (by simp)
    · rw [if_neg hp] at h
      rw [List.cons_append, dictGet_cons, if_neg hp]
      exact ih h

theorem dictGet_append_of_some (d d2 : List (String × String)) (k v : String)
    (h : dictGet d k = some v) : dictGet (d ++ d2) k = some v := by
  induction d with
  | nil => simp [dictGet] at h
  | cons p rest ih =>
    rw [dictGet_cons] at h
    by_cases hp : p.1 = k
    · rw [if_pos hp] at h
      rw [List.cons_append, dictGet_cons, if_pos hp]
      exact h
    · rw [if_neg hp] at h
      rw [List.cons_append, dictGet_cons, if_neg hp]
      exact ih h

theorem dictGet_none_of_not_mem (d : List (String × String)) (k : String)
    (h : k ∉ dictKeys d) : dictGet d k = none := by
  induction d with
  | nil => rfl
  | cons p rest ih =>
    rw [dictKeys_cons] at h
    have h1 : ¬ (p.1 = k) := by
      intro he
      exact h (by rw [← he]; exact List.mem_cons_self _ _)
    have h2 : k ∉ dictKeys rest := fun hm => h (List.mem_cons_of_mem _ hm)
    rw [dictGet_cons, if_neg h1]
    exact ih h2

theorem dictKeys_insert (d : List (String × String)) (k v : String) :
    dictKeys (pyDictInsert d k v)
      = if k ∈ dictKeys d then dictKeys d else dictKeys d ++ [k] := by
  by_cases h : k ∈ dictKeys d
  · rw [if_pos h, pyDictInsert, if_pos ((any_key_eq d k).mpr h)]
    exact dictKeys_map_replace k v d
  · rw [if_neg h, pyDictInsert, if_neg (by simp [any_key_eq_false d k h])]
    simp [dictKeys]

theorem dictGet_insert_self (d : List (String × String)) (k v : String) :
    dictGet (pyDictInsert d k v) k = some v := by
  by_cases h : k ∈ dictKeys d
  · rw [pyDictInsert, if_pos ((any_key_eq d k).mpr h)]
    exact dictGet_map_replace_self k v d h
  · rw [pyDictInsert, if_neg (by simp [any_key_eq_false d k h])]
    rw [dictGet_append_of_none d _ k (dictGet_none_of_not_mem d k h)]
    simp [dictGet]

theorem dictGet_insert_ne (d : List (String × String)) (k v k2 : String) (hne : k2 ≠ k) :
    dictGet (pyDictInsert d k v) k2 = dictGet d k2 := by
  by_cases h : k ∈ dictKeys d
  · rw [pyDictInsert, if_pos ((any_key_eq d k).mpr h)]
    exact dictGet_map_replace_ne k v k2 hne d
  · rw [pyDictInsert, if_neg (by simp [any_key_eq_false d k h])]
    cases hd : dictGet d k2 with
    | some v2 => rw [dictGet_append_of_some d _ k2 v2 hd]
    | none =>
      rw [dictGet_append_of_none d _ k2 hd, dictGet_cons]
      rw [if_neg (fun he => hne he.symm)]
      rfl

theorem pyDictMerge_cons (d : List (String × String)) (p : String × String)
    (rest : List (String × String)) :
    pyDictMerge d (p :: rest) = pyDictMerge (pyDictInsert d p.1 p.2) rest := rfl

theorem dictGet_merge_not_mem :
    ∀ (kw d : List (String × String)) (k : String), k ∉ dictKeys kw →
      dictGet (pyDictMerge d kw) k = dictGet d k := by
  intro kw
  induction kw with
  | nil => intro d k _; rfl
  | cons p rest ih =>
    intro d k h
    rw [dictKeys_cons] at h
    have h1 : k ≠ p.1 := by
      intro he
      exact h (by rw [he]; exact List.mem_cons_self _ _)
    have h2 : k ∉ dictKeys rest := fun hm => h (List.mem_cons_of_mem _ hm)
    rw [pyDictMerge_cons, ih _ k h2]
    exact dictGet_insert_ne d p.1 p.2 k h1

theorem dictGet_merge_mem :
    ∀ (kw d : List (String × String)) (k v : String), (dictKeys kw).Nodup →
      (k, v) ∈ kw → dictGet (pyDictMerge d kw) k = some v := by
  intro kw
  induction kw with
  | nil => intro d k v _ hm; simp at hm
  | cons p rest ih =>
    intro d k v hnd hmem
    rw [dictKeys_cons] at hnd
    have hnd2 := List.nodup_cons.mp hnd
    rcases List.mem_cons.mp hmem with he | hm
    · have hk : p.1 = k := by rw [← he]
      have hv : p.2 = v := by rw [← he]
      rw [pyDictMerge_cons, dictGet_merge_not_mem rest _ k (hk ▸ hnd2.1), hk, hv]
      exact dictGet_insert_self d k v
    · exact ih _ k v hnd2.2 hm

theorem dictKeys_merge :
    ∀ (kw d : List (String × String)), (dictKeys kw).Nodup →
      dictKeys (pyDictMerge d kw)
        = dictKeys d ++ (dictKeys kw).filter (fun k => decide (k ∉ dictKeys d)) := by
  intro kw
  induction kw with
  | nil =>
    intro d _
    simp only [pyDictMerge, List.foldl_nil, dictKeys, List.map_nil, List.filter_nil,
      List.append_nil]
  | cons p rest ih =>
    intro d hnd
    rw [dictKeys_cons] at hnd
    have hnd2 := List.nodup_cons.mp hnd
    rw [pyDictMerge_cons, ih _ hnd2.2, dictKeys_insert]
    by_cases h : p.1 ∈ dictKeys d
    · rw [if_pos h]
      congr 1
      rw [dictKeys_cons, List.filter_cons, if_neg (by simp [h])]
    · rw [if_neg h]
      have hfil : (dictKeys rest).filter (fun k => decide (k ∉ dictKeys d ++ [p.1]))
          = (dictKeys rest).filter (fun k => decide (k ∉ dictKeys d)) := by
        apply List.filter_congr
        intro k hk
        have hkp : ¬ (k = p.1) := fun he => hnd2.1 (he ▸ hk)
        rw [decide_eq_decide]
        simp [List.mem_append, hkp]
      rw [hfil, dictKeys_cons, List.filter_cons, if_pos (by simp [h])]
      simp

/-! Helper lemmas about string joining, deduplication, and the manifest. -/

theorem strJoin_append (sep : String) :
    ∀ xs ys : List String, xs ≠ [] → ys ≠ [] →
      strJoin sep (xs ++ ys) = strJoin sep xs ++ sep ++ strJoin sep ys := by
  intro xs
  induction xs with
  | nil => intro ys h _; exact absurd rfl h
  | cons x rest ih =>
    intro ys _ hys
    cases rest with
    | nil =>
      cases ys with
      | nil => exact absurd rfl hys
      | cons y ys2 => rfl
    | cons x2 rest2 =>
      rw [List.cons_append, List.cons_append]
      rw [show strJoin sep (x :: x2 :: (rest2 ++ ys))
          = x ++ sep ++ strJoin sep (x2 :: (rest2 ++ ys)) from rfl]
      rw [show strJoin sep (x :: x2 :: rest2)
          = x ++ sep ++ strJoin sep (x2 :: rest2) from rfl]
      rw [show x2 :: (rest2 ++ ys) = (x2 :: rest2) ++ ys from rfl]
      rw [ih ys (by simp) hys]
      simp [String.append_assoc]

theorem manifestLookup_mem :
    ∀ (m : Manifest) (k : String) (e : DjangoViteManifest),
      manifestLookup m k = some e → (k, e) ∈ m := by
  intro m
  induction m with
  | nil => intro k e h; simp [manifestLookup] at h
  | cons p rest ih =>
    intro k e h
    rw [show manifestLookup (p :: rest) k
        = if p.1 = k then some p.2 else manifestLookup rest k from rfl] at h
    by_cases hp : p.1 = k
    · rw [if_pos hp] at h
      have he : p.2 = e := by injection h
      exact List.mem_cons.mpr (Or.inl (by rw [← hp, ← he]))
    · rw [if_neg hp] at h
      exact List.mem_cons_of_mem _ (ih k e h)

theorem dedupFrom_congr :
    ∀ (l s1 s2 : List String), (∀ x, x ∈ s1 ↔ x ∈ s2) →
      dedupFrom s1 l = dedupFrom s2 l := by
  intro l
  induction l with
  | nil => intro s1 s2 _; rfl
  | cons c rest ih =>
    intro s1 s2 hs
    rw [dedupFrom, dedupFrom]
    by_cases h : c ∈ s1
    · rw [if_pos h, if_pos ((hs c).mp h)]
      exact ih s1 s2 hs
    · rw [if_neg h, if_neg (fun hc => h ((hs c).mpr hc))]
      rw [ih (c :: s1) (c :: s2) (fun x => by
        rw [List.mem_cons, List.mem_cons, hs x])]

theorem dedupFrom_append :
    ∀ (s t a : List String),
      dedupFrom a (s ++ t) = dedupFrom a s ++ dedupFrom (a ++ s) t := by
  intro s
  induction s with
  | nil =>
    intro t a
    rw [List.nil_append, List.append_nil]
    rfl
  | cons c s2 ih =>
    intro t a
    rw [List.cons_append, dedupFrom, dedupFrom]
    by_cases h : c ∈ a
    · rw [if_pos h, if_pos h, ih t a]
      congr 1
      apply dedupFrom_congr
      intro x
      simp only [List.mem_append, List.mem_cons]
      constructor
      · rintro (hx | hx)
        · exact Or.inl hx
        · exact Or.inr (Or.inr hx)
      · rintro (hx | hx | hx)
        · exact Or.inl hx
        · exact Or.inl (hx ▸ h)
        · exact Or.inr hx
    · rw [if_neg h, if_neg h, ih t (c :: a), List.cons_append]
      congr 2
      apply dedupFrom_congr
      intro x
      simp only [List.mem_append, List.mem_cons]
      tauto

theorem dedupFrom_nodup :
    ∀ (l a : List String),
      (dedupFrom a l).Nodup ∧ ∀ x ∈ dedupFrom a l, x ∉ a := by
  intro l
  induction l with
  | nil => intro a; exact ⟨List.nodup_nil, by simp [dedupFrom]⟩
  | cons c rest ih =>
    intro a
    rw [dedupFrom]
    by_cases h : c ∈ a
    · rw [if_pos h]
      exact ih a
    · rw [if_neg h]
      obtain ⟨h1, h2⟩ := ih (c :: a)
      constructor
      · exact List.nodup_cons.mpr
          ⟨fun hc => (h2 c hc) (List.mem_cons_self c a), h1⟩
      · intro x hx
        rcases List.mem_cons.mp hx with hx | hx
        · exact hx ▸ h
        · exact fun hxa => h2 x hx (List.mem_cons_of_mem c hxa)

/-! Equations and structural lemmas for the CSS dependency walk. -/

theorem generate_css_files_zero (m : Manifest) (tg : String → String) (pre : String)
    (path : String) (a : List String) :
    generate_css_files_of_asset m tg pre 0 path a = none := rfl

theorem generate_css_files_succ (m : Manifest) (tg : String → String) (pre : String)
    (f : Nat) (path : String) (a : List String) :
    generate_css_files_of_asset m tg pre (f + 1) path a
      = match manifestLookup m path with
        | none => some (.error (.keyError path))
        | some entry =>
          match generate_css_imports (generate_css_files_of_asset m tg pre f)
              entry.imports a with
          | none => none
          | some (.error e) => some (.error e)
          | some (.ok (tags, a1)) =>
            some (.ok (generate_css_own tg pre entry.css tags a1)) := rfl

theorem generate_css_own_cons (tg : String → String) (pre : String) (c : String)
    (rest tags already : List String) :
    generate_css_own tg pre (c :: rest) tags already
      = generate_css_own tg pre rest
          (if c ∉ already then tags ++ [tg (generate_production_server_url c pre)]
           else tags)
          (already ++ [c]) := rfl

theorem dedupFrom_swap_snoc (already : List String) (c : String) (rest : List String) :
    dedupFrom (already ++ [c]) rest = dedupFrom (c :: already) rest := by
  apply dedupFrom_congr
  intro x
  simp only [List.mem_append, List.mem_singleton, List.mem_cons]
  tauto

theorem dedupFrom_absorb (already : List String) (c : String) (h : c ∈ already)
    (rest : List String) :
    dedupFrom (already ++ [c]) rest = dedupFrom already rest := by
  apply dedupFrom_congr
  intro x
  simp only [List.mem_append, List.mem_singleton]
  constructor
  · rintro (hx | hx)
    · exact hx
    · exact hx ▸ h
  · exact fun hx => Or.inl hx

theorem generate_css_own_eq (tg : String → String) (pre : String) :
    ∀ (csss tags already : List String),
      generate_css_own tg pre csss tags already
        = (tags ++ (dedupFrom already csss).map
             (fun c => tg (generate_production_server_url c pre)),
           already ++ csss) := by
  intro csss
  induction csss with
  | nil => intro tags already; simp [generate_css_own, dedupFrom]
  | cons c rest ih =>
    intro tags already
    rw [generate_css_own_cons]
    by_cases h : c ∈ already
    · rw [if_neg (not_not_intro h), ih]
      simp only [dedupFrom]
      rw [if_pos h, dedupFrom_absorb already c h rest]
      simp
    · rw [if_pos h, ih]
      simp only [dedupFrom]
      rw [if_neg h, dedupFrom_swap_snoc]
      simp

theorem generate_css_imports_char
    (step : String → List String → Option (Except PyErr (List String × List String)))
    (seqf : String → List String) (emit : String → String)
    (hstep : ∀ p a tags fin, step p a = some (.ok (tags, fin)) →
      fin = a ++ seqf p ∧ tags = (dedupFrom a (seqf p)).map emit) :
    ∀ (l a tags fin : List String),
      generate_css_imports step l a = some (.ok (tags, fin)) →
        fin = a ++ l.flatMap seqf ∧ tags = (dedupFrom a (l.flatMap seqf)).map emit := by
  intro l
  induction l with
  | nil =>
    intro a tags fin h
    simp only [generate_css_imports, Option.some.injEq, Except.ok.injEq,
      Prod.mk.injEq] at h
    obtain ⟨h1, h2⟩ := h
    subst h1
    subst h2
    simp [dedupFrom]
  | cons p rest ih =>
    intro a tags fin h
    simp only [generate_css_imports] at h
    split at h
    · exact absurd h (by simp)
    · exact absurd h (by simp)
    · rename_i tags1 a1 hsp
      split at h
      · exact absurd h (by simp)
      · exact absurd h (by simp)
      · rename_i tags2 a2 hrest
        simp only [Option.some.injEq, Except.ok.injEq, Prod.mk.injEq] at h
        obtain ⟨htags, hfin⟩ := h
        have h1 := hstep p a tags1 a1 hsp
        have h2 := ih a1 tags2 a2 hrest
        constructor
        · rw [← hfin, h2.1, h1.1, List.flatMap_cons, List.append_assoc]
        · rw [← htags, h1.2, h2.2, h1.1, List.flatMap_cons, dedupFrom_append,
            List.map_append]

theorem generate_css_files_char (m : Manifest) (tg : String → String) (pre : String) :
    ∀ (fuel : Nat) (path : String) (a tags fin : List String),
      generate_css_files_of_asset m tg pre fuel path a = some (.ok (tags, fin)) →
        fin = a ++ cssSpecSeq m fuel path ∧
        tags = (dedupFrom a (cssSpecSeq m fuel path)).map
          (fun c => tg (generate_production_server_url c pre)) := by
  intro fuel
  induction fuel with
  | zero =>
    intro path a tags fin h
    exact absurd h (by simp [generate_css_files_zero])
  | succ f ih =>
    intro path a tags fin h
    rw [generate_css_files_succ] at h
    split at h
    · exact absurd h (by simp)
    · rename_i entry hl
      split at h
      · exact absurd h (by simp)
      · exact absurd h (by simp)
      · rename_i tags1 a1 him
        rw [generate_css_own_eq] at h
        simp only [Option.some.injEq, Except.ok.injEq, Prod.mk.injEq] at h
        obtain ⟨htags, hfin⟩ := h
        have hx := generate_css_imports_char (generate_css_files_of_asset m tg pre f)
          (cssSpecSeq m f) (fun c => tg (generate_production_server_url c pre))
          (fun p a2 t2 f2 hh => ih p a2 t2 f2 hh) entry.imports a tags1 a1 him
        have hseq : cssSpecSeq m (f + 1) path
            = entry.imports.flatMap (cssSpecSeq m f) ++ entry.css := by
          simp only [cssSpecSeq, hl]
        constructor
        · rw [← hfin, hx.1, hseq, List.append_assoc]
        · rw [← htags, hx.2, hx.1, hseq, dedupFrom_append, List.map_append]

theorem generate_css_imports_total
    (step : String → List String → Option (Except PyErr (List String × List String))) :
    ∀ l : List String,
      (∀ p ∈ l, ∀ a, ∃ tags fin, step p a = some (.ok (tags, fin))) →
      ∀ a, ∃ tags fin, generate_css_imports step l a = some (.ok (tags, fin)) := by
  intro l
  induction l with
  | nil => intro _ a; exact ⟨[], a, rfl⟩
  | cons p rest ih =>
    intro hstep a
    obtain ⟨t1, f1, h1⟩ := hstep p (List.mem_cons_self p rest) a
    obtain ⟨t2, f2, h2⟩ := ih (fun q hq a2 => hstep q (List.mem_cons_of_mem p hq) a2) f1
    refine ⟨t1 ++ t2, f2, ?_⟩
    simp only [generate_css_imports, h1, h2]

theorem generate_css_files_total (m : Manifest) (r : String → Nat)
    (tg : String → String) (pre : String)
    (hr : RankedImports m r) (hc : ImportsClosed m) :
    ∀ (n : Nat) (path : String) (a : List String), r path ≤ n →
      (manifestLookup m path).isSome = true →
      ∃ tags fin, generate_css_files_of_asset m tg pre (n + 1) path a
        = some (.ok (tags, fin)) := by
  intro n
  induction n with
  | zero =>
    intro path a hle hsome
    obtain ⟨entry, hl⟩ := Option.isSome_iff_exists.mp hsome
    have hmem := manifestLookup_mem m path entry hl
    have hstep : ∀ p ∈ entry.imports, ∀ a2,
        ∃ tags fin, generate_css_files_of_asset m tg pre 0 p a2
          = some (.ok (tags, fin)) := by
      intro p hp a2
      have hlt : r p < r path := hr (path, entry) hmem p hp
      exact absurd hlt (by omega)
    obtain ⟨t1, f1, h1⟩ := generate_css_imports_total _ entry.imports hstep a
    cases hgco : generate_css_own tg pre entry.css t1 f1 with
    | mk tags2 fin2 =>
      refine ⟨tags2, fin2, ?_⟩
      simp only [generate_css_files_succ, hl, h1, hgco]
  | succ k ihk =>
    intro path a hle hsome
    obtain ⟨entry, hl⟩ := Option.isSome_iff_exists.mp hsome
    have hmem := manifestLookup_mem m path entry hl
    have hstep : ∀ p ∈ entry.imports, ∀ a2,
        ∃ tags fin, generate_css_files_of_asset m tg pre (k + 1) p a2
          = some (.ok (tags, fin)) := by
      intro p hp a2
      have hlt : r p < r path := hr (path, entry) hmem p hp
      exact ihk p a2 (by omega) (hc (path, entry) hmem p hp)
    obtain ⟨t1, f1, h1⟩ := generate_css_imports_total _ entry.imports hstep a
    cases hgco : generate_css_own tg pre entry.css t1 f1 with
    | mk tags2 fin2 =>
      refine ⟨tags2, fin2, ?_⟩
      simp only [generate_css_files_succ, hl, h1, hgco]

theorem generate_css_imports_err
    (step : String → List String → Option (Except PyErr (List String × List String)))
    (hstep : ∀ p a e, step p a = some (.error e) → ∃ k2, e = PyErr.keyError k2) :
    ∀ (l a : List String) (e : PyErr),
      generate_css_imports step l a = some (.error e) → ∃ k2, e = PyErr.keyError k2 := by
  intro l
  induction l with
  | nil => intro a e h; exact absurd h (by simp [generate_css_imports])
  | cons p rest ih =>
    intro a e h
    simp only [generate_css_imports] at h
    split at h
    · exact absurd h (by simp)
    · rename_i e2 hsp
      have he : e2 = e := by simpa using h
      exact he ▸ hstep p a e2 hsp
    · rename_i tags1 a1 hsp
      split at h
      · exact absurd h (by simp)
      · rename_i e2 hrest
        have he : e2 = e := by simpa using h
        exact he ▸ ih a1 e2 hrest
      · exact absurd h (by simp)

theorem generate_css_files_err (m : Manifest) (tg : String → String) (pre : String) :
    ∀ (fuel : Nat) (path : String) (a : List String) (e : PyErr),
      generate_css_files_of_asset m tg pre fuel path a = some (.error e) →
        ∃ k2, e = PyErr.keyError k2 := by
  intro fuel
  induction fuel with
  | zero =>
    intro path a e h
    exact absurd h (by simp [generate_css_files_zero])
  | succ f ih =>
    intro path a e h
    rw [generate_css_files_succ] at h
    split at h
    · rename_i hl
      have he : PyErr.keyError path = e := by simpa using h
      exact ⟨path, he.symm⟩
    · rename_i entry hl
      split at h
      · exact absurd h (by simp)
      · rename_i e2 him
        have he : e2 = e := by simpa using h
        exact he ▸ generate_css_imports_err _ (fun p a2 e3 hh => ih p a2 e3 hh)
          entry.imports a e2 him
      · exact absurd h (by simp)

theorem preloadImports_err (m : Manifest) (pfx : String)
    (attrs : List (String × String)) :
    ∀ (l : List String) (e : PyErr),
      preloadImports m pfx attrs l = .error e → ∃ k2, e = PyErr.keyError k2 := by
  intro l
  induction l with
  | nil => intro e h; exact absurd h (by simp [preloadImports])
  | cons dep rest ih =>
    intro e h
    simp only [preloadImports] at h
    split at h
    · rename_i hl
      have he : PyErr.keyError dep = e := by simpa using h
      exact ⟨dep, he.symm⟩
    · rename_i de hl
      split at h
      · rename_i e2 hrest
        have he : e2 = e := by simpa using h
        exact he ▸ ih e2 hrest
      · exact absurd h (by simp)

theorem cyc_walk_diverges (tg : String → String) (pre : String) :
    ∀ (fuel : Nat) (a : List String),
      generate_css_files_of_asset cycManifest tg pre fuel "app.js" a = none := by
  intro fuel
  induction fuel with
  | zero => intro a; rfl
  | succ f ih =>
    intro a
    have hl : manifestLookup cycManifest "app.js"
        = some { file := "app.123.js", src := "app.js", isEntry := true,
                 css := [], imports := ["app.js"] } := rfl
    have him : generate_css_imports (generate_css_files_of_asset cycManifest tg pre f)
        ["app.js"] a = none := by
      simp only [generate_css_imports]
      rw [ih a]
    simp only [generate_css_files_succ, hl, him]

/-! Claim theorems. -/

/-- Claim C1: the spec's worked example requires `resolveAsset("main.js")` in
production with `static_url_prefix = "static/"` to emit a stylesheet link
for shared.css, one for main.css, the script tag, and a modulepreload link.
The code instead raises `AttributeError` at `for dep in manifest.imports`
(the manifest dict has no `imports` attribute) after having computed the
CSS tags — which do match the spec's expected order — so no tag string is
ever returned. -/
theorem vite_asset_spec_example_attribute_error :
    generate_vite_asset stEx prodCfgStatic exManifest 5 "main.js" []
      = some (.error (.attributeError "dict object has no attribute imports")) ∧
    generate_css_files_of_asset exManifest generate_stylesheet_tag "static/" 5
        "main.js" []
      = some (.ok (["<link rel=\"stylesheet\" href=\"static/shared.css\" />",
                    "<link rel=\"stylesheet\" href=\"static/main.css\" />"],
                   ["shared.css", "main.css"])) :=
  ⟨rfl, rfl⟩

/-- Claim C2: on every acyclic (rank-witnessed), imports-closed manifest and
entry present in it, the CSS walk started with an empty visited list
terminates, and its output is exactly the first-occurrence deduplication of
the spec's pre-order CSS sequence (`cssSpecSeq`: for each node, the
sequences of its imports in order, then the node's own css), mapped through
the tag generator — hence each distinct CSS path is emitted at most once
(`Nodup`) and dependency CSS precedes each node's own CSS. -/
theorem css_chain_dedup_preorder (m : Manifest) (r : String → Nat)
    (tg : String → String) (pre : String) (path : String)
    (hr : RankedImports m r) (hc : ImportsClosed m)
    (hp : (manifestLookup m path).isSome = true) :
    ∃ fuel tags fin,
      generate_css_files_of_asset m tg pre fuel path [] = some (.ok (tags, fin)) ∧
      tags = (dedupFrom [] (cssSpecSeq m fuel path)).map
        (fun c => tg (generate_production_server_url c pre)) ∧
      (dedupFrom [] (cssSpecSeq m fuel path)).Nodup ∧
      fin = cssSpecSeq m fuel path := by
  obtain ⟨tags, fin, h⟩ :=
    generate_css_files_total m r tg pre hr hc (r path) path [] le_rfl hp
  obtain ⟨h1, h2⟩ :=
    generate_css_files_char m tg pre (r path + 1) path [] tags fin h
  exact ⟨r path + 1, tags, fin, h, h2, (dedupFrom_nodup _ _).1, by simpa using h1⟩

/-- Witness for C2 at the spec's worked example manifest with the
`"static/"` prefix. -/
theorem css_chain_dedup_preorder_witness :
    ∃ fuel tags fin,
      generate_css_files_of_asset exManifest generate_stylesheet_tag "static/"
          fuel "main.js" [] = some (.ok (tags, fin)) ∧
      tags = (dedupFrom [] (cssSpecSeq exManifest fuel "main.js")).map
        (fun c => generate_stylesheet_tag (generate_production_server_url c "static/")) ∧
      (dedupFrom [] (cssSpecSeq exManifest fuel "main.js")).Nodup ∧
      fin = cssSpecSeq exManifest fuel "main.js" :=
  css_chain_dedup_preorder exManifest exRank generate_stylesheet_tag "static/"
    "main.js" (by decide) (by decide) (by decide)

/-- Claim C3: the claim says `preload_vite_asset`, `generate_vite_legacy_asset`
and `generate_vite_legacy_polyfills` all return the empty string in dev mode.
The legacy functions do, but `preload_vite_asset` has its dev-mode test
inverted (`if not config.dev_mode: return ""`), so in dev mode it returns a
non-empty preload tag string and in production mode it returns the empty
string — the exact opposite of the claim and of its own docstring. -/
theorem preload_dev_mode_not_empty :
    (∃ s, preload_vite_asset stEx devCfg soloManifest 5 "solo.js"
        = some (.ok s) ∧ s ≠ "") ∧
    preload_vite_asset stEx prodCfg soloManifest 5 "solo.js" = some (.ok "") ∧
    generate_vite_legacy_asset stEx devCfg soloManifest "solo.js" [] = .ok "" ∧
    generate_vite_legacy_polyfills stEx devCfg soloManifest [] = .ok "" :=
  ⟨⟨_, rfl, by decide⟩, rfl, rfl, rfl⟩

/-- Claim C4: the round-trip through `generate_vite_asset_url` fails on the
code: in production, for every path present in the manifest, the return
expression indexes the nonexistent `self._manifest` attribute (the loader
only has `_manifests`), so the call raises `AttributeError` and never
returns a URL. -/
theorem asset_url_production_attribute_error (st : DjangoSettings)
    (cfg : DjangoViteConfig) (m : Manifest) (path : String)
    (entry : DjangoViteManifest)
    (hdev : cfg.dev_mode = false) (hl : manifestLookup m path = some entry) :
    generate_vite_asset_url st cfg m path
      = .error (.attributeError
          "DjangoViteAssetLoader object has no attribute _manifest") ∧
    ∀ s, generate_vite_asset_url st cfg m path ≠ .ok s := by
  have he : generate_vite_asset_url st cfg m path
      = .error (.attributeError
          "DjangoViteAssetLoader object has no attribute _manifest") := by
    simp [generate_vite_asset_url, hdev, hl]
  refine ⟨he, fun s hs => ?_⟩
  rw [he] at hs
  exact absurd hs (by simp)

/-- Witness for C4 at the example manifest. -/
theorem asset_url_production_attribute_error_witness :
    generate_vite_asset_url stEx prodCfg exManifest "main.js"
      = .error (.attributeError
          "DjangoViteAssetLoader object has no attribute _manifest") :=
  (asset_url_production_attribute_error stEx prodCfg exManifest "main.js"
    mainEntry rfl rfl).1

/-- Claim C5: the CSS walk tracks only visited CSS paths, not visited nodes:
on the one-entry manifest whose entry imports itself, the walk exceeds every
recursion-depth bound (`none` for every fuel — unbounded recursion), while
for every rank-witnessed acyclic, imports-closed manifest the walk
terminates successfully on every entry present in it. -/
theorem css_chain_cycle_diverges_acyclic_terminates :
    (∀ (tg : String → String) (pre : String) (fuel : Nat) (a : List String),
      generate_css_files_of_asset cycManifest tg pre fuel "app.js" a = none) ∧
    (∀ (m : Manifest) (r : String → Nat) (tg : String → String) (pre : String)
      (path : String), RankedImports m r → ImportsClosed m →
      (manifestLookup m path).isSome = true →
      ∃ fuel tags fin, generate_css_files_of_asset m tg pre fuel path []
        = some (.ok (tags, fin))) := by
  constructor
  · exact fun tg pre fuel a => cyc_walk_diverges tg pre fuel a
  · intro m r tg pre path hr hc hp
    obtain ⟨tags, fin, h⟩ :=
      generate_css_files_total m r tg pre hr hc (r path) path [] le_rfl hp
    exact ⟨r path + 1, tags, fin, h⟩

/-- Witness for C5: divergence on the cyclic manifest at fuel 3, and
successful termination on an acyclic one. -/
theorem css_chain_cycle_diverges_acyclic_terminates_witness :
    generate_css_files_of_asset cycManifest generate_stylesheet_tag "" 3
        "app.js" [] = none ∧
    ∃ fuel tags fin, generate_css_files_of_asset soloManifest
        generate_stylesheet_tag "" fuel "solo.js" [] = some (.ok (tags, fin)) :=
  ⟨css_chain_cycle_diverges_acyclic_terminates.1 generate_stylesheet_tag "" 3 [],
   css_chain_cycle_diverges_acyclic_terminates.2 soloManifest (fun _ => 0)
     generate_stylesheet_tag "" "solo.js" (by decide) (by decide) (by decide)⟩

/-- Claim C6: in production, for a path absent from the loaded manifest,
`generate_vite_asset` fails with the RuntimeError whose message names the
requested path and the computed manifest path, and returns no tag string. -/
theorem vite_asset_missing_key_error (st : DjangoSettings) (cfg : DjangoViteConfig)
    (m : Manifest) (fuel : Nat) (path : String) (kwargs : List (String × String))
    (hdev : cfg.dev_mode = false) (habs : manifestLookup m path = none) :
    generate_vite_asset st cfg m fuel path kwargs
      = some (.error (.runtimeError ("Cannot find " ++ path
          ++ " in Vite manifest at " ++ cfg.get_computed_manifest_path st))) ∧
    ∀ s, generate_vite_asset st cfg m fuel path kwargs ≠ some (.ok s) := by
  have he : generate_vite_asset st cfg m fuel path kwargs
      = some (.error (.runtimeError ("Cannot find " ++ path
          ++ " in Vite manifest at " ++ cfg.get_computed_manifest_path st))) := by
    simp [generate_vite_asset, hdev, habs]
  refine ⟨he, fun s hs => ?_⟩
  rw [he] at hs
  exact absurd hs (by simp)

/-- Witness for C6 at a missing key of the example manifest. -/
theorem vite_asset_missing_key_error_witness :
    generate_vite_asset stEx prodCfg exManifest 3 "nonexistent.js" []
      = some (.error (.runtimeError ("Cannot find " ++ "nonexistent.js"
          ++ " in Vite manifest at " ++ prodCfg.get_computed_manifest_path stEx))) ∧
    ∀ s, generate_vite_asset stEx prodCfg exManifest 3 "nonexistent.js" []
      ≠ some (.ok s) :=
  vite_asset_missing_key_error stEx prodCfg exManifest 3 "nonexistent.js" [] rfl rfl

/-- Claim C7: the claim says the polyfills scan returns the nomodule script
tag of the first motif-matching key in document order. The scan order is as
claimed (`findPolyfillsEntry` picks the first of the two matching keys), but
on any match the source evaluates `content["file"]` on a NamedTuple, which
raises `TypeError`, so the tag is never produced; with no match it raises
the not-found RuntimeError as claimed. -/
theorem legacy_polyfills_match_type_error :
    generate_vite_legacy_polyfills stEx prodCfg polyManifest []
      = .error (.typeError "tuple indices must be integers or slices, not str") ∧
    findPolyfillsEntry prodCfg.legacy_polyfills_motif polyManifest
      = some ("vite/legacy-polyfills-aaa", polyEntryA) ∧
    generate_vite_legacy_polyfills stEx prodCfg exManifest []
      = .error (.runtimeError ("Vite legacy polyfills not found in manifest at "
          ++ prodCfg.get_computed_manifest_path stEx)) :=
  ⟨rfl, rfl, rfl⟩

/-- Claim C8: attribute mappings render in insertion order (splitting over
list concatenation), the `{**defaults, **kwargs}` merge keeps the default
keys in their original positions followed by fresh kwargs keys in kwargs
order, a caller-supplied key overrides the default value, and in particular
a kwargs `type` entry replaces `type="module"` in the generated script tag
at its original position. -/
theorem script_attrs_order_and_override :
    (∀ kw : List (String × String), (dictKeys kw).Nodup →
      dictKeys (pyDictMerge scriptDefaultAttrs kw)
        = dictKeys scriptDefaultAttrs
          ++ (dictKeys kw).filter (fun k => decide (k ∉ dictKeys scriptDefaultAttrs)) ∧
      ∀ k v, (k, v) ∈ kw → dictGet (pyDictMerge scriptDefaultAttrs kw) k = some v) ∧
    (∀ xs ys : List (String × String), xs ≠ [] → ys ≠ [] →
      attrsString (xs ++ ys) = attrsString xs ++ " " ++ attrsString ys) ∧
    (∀ src v : String,
      generate_script_tag src (pyDictMerge scriptDefaultAttrs [("type", v)])
        = generate_script_tag src [("type", v), ("crossorigin", "")]) := by
  refine ⟨?_, ?_, ?_⟩
  · intro kw hnd
    exact ⟨dictKeys_merge kw scriptDefaultAttrs hnd,
           fun k v hm => dictGet_merge_mem kw scriptDefaultAttrs k v hnd hm⟩
  · intro xs ys hxs hys
    simp only [attrsString, List.map_append]
    exact strJoin_append " " _ _ (by simpa using hxs) (by simpa using hys)
  · intro src v
    rfl

/-- Witness for C8 at a concrete kwargs mapping with a colliding `type` key
and a fresh key. -/
theorem script_attrs_order_and_override_witness :
    dictKeys (pyDictMerge scriptDefaultAttrs [("type", "text/x"), ("data-x", "1")])
      = dictKeys scriptDefaultAttrs
        ++ (dictKeys [("type", "text/x"), ("data-x", "1")]).filter
            (fun k => decide (k ∉ dictKeys scriptDefaultAttrs)) ∧
    dictGet (pyDictMerge scriptDefaultAttrs [("type", "text/x"), ("data-x", "1")])
        "type" = some "text/x" :=
  ⟨(script_attrs_order_and_override.1 [("type", "text/x"), ("data-x", "1")]
      (by decide)).1,
   (script_attrs_order_and_override.1 [("type", "text/x"), ("data-x", "1")]
      (by decide)).2 "type" "text/x" (by decide)⟩

/-- Claim C9: in production mode `generate_vite_asset` never returns a tag
string: for an absent path it raises the not-found RuntimeError, and for a
present path, once the CSS walk has produced its tags, the
`for dep in manifest.imports` line raises `AttributeError` because
`manifest` is the whole dict (and the loop body would index the nonexistent
`self._manifest`). -/
theorem vite_asset_production_never_ok (st : DjangoSettings)
    (cfg : DjangoViteConfig) (m : Manifest) (fuel : Nat) (path : String)
    (kwargs : List (String × String)) (hdev : cfg.dev_mode = false) :
    (∀ s, generate_vite_asset st cfg m fuel path kwargs ≠ some (.ok s)) ∧
    (manifestLookup m path = none →
      generate_vite_asset st cfg m fuel path kwargs
        = some (.error (.runtimeError ("Cannot find " ++ path
            ++ " in Vite manifest at " ++ cfg.get_computed_manifest_path st)))) ∧
    (∀ (entry : DjangoViteManifest) (res : List String × List String),
      manifestLookup m path = some entry →
      generate_css_files_of_asset m generate_stylesheet_tag cfg.static_url_pfx
          fuel path [] = some (.ok res) →
      generate_vite_asset st cfg m fuel path kwargs
        = some (.error (.attributeError "dict object has no attribute imports"))) := by
  refine ⟨?_, ?_, ?_⟩
  · intro s hs
    simp only [generate_vite_asset, hdev, Bool.false_eq_true, if_false] at hs
    split at hs
    · exact absurd hs (by simp)
    · rename_i entry hl
      split at hs
      · exact absurd hs (by simp)
      · exact absurd hs (by simp)
      · exact absurd hs (by simp)
  · intro habs
    simp [generate_vite_asset, hdev, habs]
  · intro entry res hl hwalk
    obtain ⟨rt, rf⟩ := res
    simp [generate_vite_asset, hdev, hl, hwalk]

/-- Witness for C9 at the example manifest and a missing path. -/
theorem vite_asset_production_never_ok_witness :
    generate_vite_asset stEx prodCfgStatic exManifest 5 "missing.js" []
      = some (.error (.runtimeError ("Cannot find " ++ "missing.js"
          ++ " in Vite manifest at "
          ++ prodCfgStatic.get_computed_manifest_path stEx))) :=
  (vite_asset_production_never_ok stEx prodCfgStatic exManifest 5 "missing.js"
    [] rfl).2.1 rfl

/-- Claim C10: `preload_vite_asset` evaluates `manifest[path]` before any
guard, so an absent path raises a raw `KeyError` in every configuration, and
the guarded `path not in manifest` RuntimeError branch can never be the
outcome of a call. -/
theorem preload_missing_key_raw_key_error (st : DjangoSettings)
    (cfg : DjangoViteConfig) (m : Manifest) (fuel : Nat) (path : String) :
    (manifestLookup m path = none →
      preload_vite_asset st cfg m fuel path = some (.error (.keyError path))) ∧
    preload_vite_asset st cfg m fuel path
      ≠ some (.error (.runtimeError ("Cannot find " ++ path
          ++ " in Vite manifest at " ++ cfg.get_computed_manifest_path st))) := by
  constructor
  · intro habs
    simp [preload_vite_asset, habs]
  · intro hcontra
    simp only [preload_vite_asset] at hcontra
    split at hcontra
    · exact absurd hcontra (by simp)
    · rename_i entry hl
      split at hcontra
      · exact absurd hcontra (by simp)
      · split at hcontra
        · rename_i hnone
          rw [hl] at hnone
          simp at hnone
        · split at hcontra
          · exact absurd hcontra (by simp)
          · rename_i e hwalk
            obtain ⟨k2, hk⟩ := generate_css_files_err m
              generate_stylesheet_preload_tag cfg.static_url_pfx fuel path [] e hwalk
            rw [hk] at hcontra
            exact absurd hcontra (by simp)
          · rename_i cssTags rest2 hwalk
            split at hcontra
            · rename_i e himp
              obtain ⟨k2, hk⟩ := preloadImports_err m cfg.static_url_pfx _
                entry.imports e himp
              rw [hk] at hcontra
              exact absurd hcontra (by simp)
            · exact absurd hcontra (by simp)

/-- Witness for C10 at a missing key. -/
theorem preload_missing_key_raw_key_error_witness :
    preload_vite_asset stEx devCfg soloManifest 5 "nope"
      = some (.error (.keyError "nope")) :=
  (preload_missing_key_raw_key_error stEx devCfg soloManifest 5 "nope").1 rfl

end DjangoVite

